import Mathlib

/-!
Shallow embedding of the Yandex Praktikum homework-status Telegram bot
(`src/homework.py`, the single-threaded variant, and `src/backend/homework.py`,
the dual-activity variant) together with theorems settling the frozen claims.

Python values flowing through the bot (parsed JSON payloads, record fields)
are modelled by the inductive type `Raw`.  Exceptions are modelled by the
`BotError` type; the distinction that matters to the control flow of
`src/homework.py` is whether an exception is an instance of
`HomeworkBotError` (only `APIResponseError` is) — builtin `TypeError`,
`KeyError`, `ValueError` and the Telegram transport exceptions are not.
External effects (the HTTP fetch, the local clock, the Telegram transport)
are supplied as per-cycle oracle records, so a cycle is a pure function of
the state and the oracle.
-/

namespace YandexBot

/-- A parsed JSON-like Python value: the payloads and record fields the bot
manipulates.  (Floats/booleans/None never occur in the fields the claims
touch, so they are omitted.) -/
inductive Raw where
  | str : String → Raw
  | int : Int → Raw
  | list : List Raw → Raw
  | dict : List (String × Raw) → Raw

/-- Python `d[k]` / `k in d` on a dict: first binding of key `k`; `none` when
the key is absent or the value is not a dict. -/
def Raw.find? : Raw → String → Option Raw
  | .dict kvs, k => (kvs.find? fun p => p.1 == k).map (·.2)
  | _, _ => none

/-- Python `d.get(k, default)`. -/
def Raw.getD (r : Raw) (k : String) (d : Raw) : Raw :=
  (r.find? k).getD d

/-- Python `str()` rendering as used inside the bot's f-strings.  Faithful on
scalars (the only shapes interpolated by the code on the claims' inputs). -/
def Raw.rend : Raw → String
  | .str s => s
  | .int n => toString n
  | .list _ => "[...]"
  | .dict _ => "{...}"

/-- A stand-in for Python `type(x)` as interpolated into error messages. -/
def Raw.typeName : Raw → String
  | .str _ => "str"
  | .int _ => "int"
  | .list _ => "list"
  | .dict _ => "dict"

mutual
/-- Python `==` on the values compared by the bot (`current_status != last_status`).
Structural equality; faithful for scalars and for the string statuses the
records carry. -/
def Raw.pyEq : Raw → Raw → Bool
  | .str a, .str b => a == b
  | .int a, .int b => a == b
  | .list a, .list b => Raw.pyEqList a b
  | .dict a, .dict b => Raw.pyEqDict a b
  | _, _ => false

def Raw.pyEqList : List Raw → List Raw → Bool
  | [], [] => true
  | a :: as, b :: bs => Raw.pyEq a b && Raw.pyEqList as bs
  | _, _ => false

def Raw.pyEqDict : List (String × Raw) → List (String × Raw) → Bool
  | [], [] => true
  | (k, a) :: as, (l, b) :: bs => k == l && Raw.pyEq a b && Raw.pyEqDict as bs
  | _, _ => false
end

/-- The exceptions that can arise in a poll cycle.
`apiError` is `APIResponseError` (the only `HomeworkBotError` subclass raised);
`typeErr`, `keyErr`, `valueErr` are the builtin `TypeError` / `KeyError` /
`ValueError` raised by `check_response` / `parse_status`; `transportErr`
stands for `telebot.apihelper.ApiException` / `requests.RequestException`
raised by the Telegram transport.  Each carries its message (`keyErr` carries
the `KeyError` argument). -/
inductive BotError where
  | apiError : String → BotError
  | typeErr : String → BotError
  | keyErr : String → BotError
  | valueErr : String → BotError
  | transportErr : String → BotError

/-- `isinstance(error, HomeworkBotError)`: true exactly for `APIResponseError`. -/
def BotError.isHomeworkBotError : BotError → Bool
  | .apiError _ => true
  | _ => false

/-- Python `str(error)` (a `KeyError` renders its argument in quotes). -/
def BotError.errStr : BotError → String
  | .apiError m => m
  | .typeErr m => m
  | .keyErr m => "'" ++ m ++ "'"
  | .valueErr m => m
  | .transportErr m => m

/-- `HOMEWORK_VERDICTS` (identical in both variants). -/
def HOMEWORK_VERDICTS : List (String × String) :=
  [("approved", "Работа проверена: ревьюеру всё понравилось. Ура!"),
   ("reviewing", "Работа взята на проверку ревьюером."),
   ("rejected", "Работа проверена: у ревьюера есть замечания.")]

/-- Python `HOMEWORK_VERDICTS[status]` / `status in HOMEWORK_VERDICTS` for a
raw status value: a lookup that succeeds only for recognised string codes. -/
def verdictOf : Raw → Option String
  | .str s => (HOMEWORK_VERDICTS.find? fun p => p.1 == s).map (·.2)
  | _ => none

/-- `check_response` (src/homework.py lines 91-101; the backend's copy differs
only in message wording): dict check, then `homeworks` presence, then list
check, then the entries are returned unchanged. -/
def check_response (response : Raw) : Except BotError (List Raw) :=
  match response with
  | .dict _ =>
    match response.find? "homeworks" with
    | none => .error (.keyErr "Отсутствует ключ \"homeworks\" в ответе API")
    | some v =>
      match v with
      | .list hws => .ok hws
      | _ => .error (.typeErr ("Значение ключа \"homeworks\" должно быть списком, но получен " ++ v.typeName))
  | _ => .error (.typeErr ("Ответ API должен быть словарем, но получен " ++ response.typeName))

/-- `parse_status` (src/homework.py lines 104-120): key checks, verdict
lookup, fixed display template. -/
def parse_status (homework : Raw) : Except BotError String :=
  match homework.find? "homework_name" with
  | none => .error (.keyErr "Отсутствует ключ \"homework_name\"")
  | some nameV =>
    match homework.find? "status" with
    | none => .error (.keyErr "Отсутствует ключ \"status\"")
    | some statusV =>
      match verdictOf statusV with
      | none => .error (.valueErr ("Неизвестный статус работы: " ++ statusV.rend))
      | some verdict =>
        .ok ("Изменился статус проверки работы \"" ++ nameV.rend ++ "\". " ++ verdict)

/-- `parse_status` of src/backend/homework.py lines 102-118: identical checks,
different message templates. -/
def parse_status_b (homework : Raw) : Except BotError String :=
  match homework.find? "homework_name" with
  | none => .error (.keyErr "Отсутствует ключ \"homework_name\"")
  | some nameV =>
    match homework.find? "status" with
    | none => .error (.keyErr "Отсутствует ключ \"status\"")
    | some statusV =>
      match verdictOf statusV with
      | none => .error (.valueErr ("Неизвестный статус: " ++ statusV.rend))
      | some verdict =>
        .ok ("Статус работы \"" ++ nameV.rend ++ "\": " ++ verdict)

/-! ## The single-threaded variant's scheduler loop (src/homework.py, main, lines 123-170) -/

/-- The loop-carried state of `main` in src/homework.py: `timestamp` (the
fetch cursor, kept as the raw value `response.get` produced), `last_error`
(the `str(error)` of the last notified failure, never cleared), and
`last_message_id` (the Telegram id of the first error message, used for
edit-in-place). -/
structure SimpleState where
  timestamp : Raw
  last_error : Option String
  last_message_id : Option Nat

/-- The external effects of one cycle of the simple variant: the outcome of
`get_api_answer` (which raises only `APIResponseError`), the local clock
`int(time.time())` read at the cursor update, and the transport outcomes of
the three possible Telegram calls (`send_message` for a status text,
`bot.send_message` / `bot.edit_message_text` inside the error branch). -/
structure SimpleOracle where
  fetchRes : Except BotError Raw
  now : Int
  statusSendOk : Bool
  errorDeliver : Except BotError Nat
  errorEditRes : Except BotError Unit

/-- The fate of one loop iteration: `next st` — the `finally: sleep` runs and
the loop continues with state `st`; `crash e` — exception `e` escaped the
`try`/`except HomeworkBotError` and the loop (hence the process) terminates. -/
inductive CycleResult (σ : Type) where
  | next : σ → CycleResult σ
  | crash : BotError → CycleResult σ

/-- The `except HomeworkBotError` clause of `main` (src/homework.py lines
152-167), reached with exception `e`.  A non-`HomeworkBotError` exception is
not caught and crashes the loop.  Inside the handler, a new error text is
delivered by `bot.edit_message_text` when a prior error message id exists,
else by a fresh `bot.send_message` whose id is remembered; both transport
calls are unguarded, so their failure also crashes the loop.  The returned
list collects the texts of fresh successful sends. -/
def simple_handle (st : SimpleState) (o : SimpleOracle) (e : BotError) :
    CycleResult SimpleState × List String :=
  if e.isHomeworkBotError then
    if st.last_error == some e.errStr then (.next st, [])
    else
      match st.last_message_id with
      | some _ =>
        match o.errorEditRes with
        | .ok _ => (.next { st with last_error := some e.errStr }, [])
        | .error de => (.crash de, [])
      | none =>
        match o.errorDeliver with
        | .ok mid =>
          (.next { st with last_error := some e.errStr, last_message_id := some mid },
           ["Сбой в работе программы: " ++ e.errStr])
        | .error de => (.crash de, [])
  else (.crash e, [])

/-- One iteration of the simple variant's `while True` loop (src/homework.py
lines 138-170).  Note the order of effects inside the `try`: the cursor is
reassigned (`timestamp = response.get('current_date', int(time.time()))`)
*before* `parse_status` runs, so a parse failure leaves the cursor already
advanced; `send_message` swallows its transport failures, so a status-path
delivery failure never raises. -/
def simple_cycle (st : SimpleState) (o : SimpleOracle) :
    CycleResult SimpleState × List String :=
  match o.fetchRes with
  | .error e => simple_handle st o e
  | .ok response =>
    match check_response response with
    | .error e => simple_handle st o e
    | .ok homeworks =>
      let st1 := { st with timestamp := response.getD "current_date" (.int o.now) }
      match homeworks with
      | [] => (.next st1, [])
      | hw :: _ =>
        match parse_status hw with
        | .error e => simple_handle st1 o e
        | .ok message =>
          (.next st1, if o.statusSendOk then [message] else [])

/-- Run the simple variant's loop through a list of per-cycle oracles,
stopping early when an iteration crashes; collects all delivered texts. -/
def simple_run (st : SimpleState) : List SimpleOracle → CycleResult SimpleState × List String
  | [] => (.next st, [])
  | o :: os =>
    match simple_cycle st o with
    | (.next st1, sent) =>
      match simple_run st1 os with
      | (r, sent1) => (r, sent ++ sent1)
    | (.crash e, sent) => (.crash e, sent)

/-- One visible Telegram notification of the simple variant's cycle:
a status-path `send_message`, a fresh error `bot.send_message`, or a
`bot.edit_message_text` that rewrites the existing error message to a new
text.  An edit puts the new text in front of the operator just as a send
does, only without creating a new message. -/
inductive Notice where
  | statusSend : String → Notice
  | freshSend : String → Notice
  | editInPlace : String → Notice

/-- The text a `Notice` placed into a *new* message (`none` for an
in-place edit). -/
def Notice.sentText? : Notice → Option String
  | .statusSend t => some t
  | .freshSend t => some t
  | .editInPlace _ => none

/-- `simple_handle` again (src/homework.py lines 152-167), with the complete
notification log: identical control flow and state updates, but the
successful `bot.edit_message_text` call is recorded as `editInPlace` with
the text it showed, instead of being dropped from the observable. -/
def simple_handle_notices (st : SimpleState) (o : SimpleOracle) (e : BotError) :
    CycleResult SimpleState × List Notice :=
  if e.isHomeworkBotError then
    if st.last_error == some e.errStr then (.next st, [])
    else
      match st.last_message_id with
      | some _ =>
        match o.errorEditRes with
        | .ok _ =>
          (.next { st with last_error := some e.errStr },
           [.editInPlace ("Сбой в работе программы: " ++ e.errStr)])
        | .error de => (.crash de, [])
      | none =>
        match o.errorDeliver with
        | .ok mid =>
          (.next { st with last_error := some e.errStr, last_message_id := some mid },
           [.freshSend ("Сбой в работе программы: " ++ e.errStr)])
        | .error de => (.crash de, [])
  else (.crash e, [])

/-- `simple_cycle` again (src/homework.py lines 138-170), with the complete
notification log (see `simple_handle_notices`); `simple_cycle_notices_agree`
proves it is the same translation, differing only in keeping the edits. -/
def simple_cycle_notices (st : SimpleState) (o : SimpleOracle) :
    CycleResult SimpleState × List Notice :=
  match o.fetchRes with
  | .error e => simple_handle_notices st o e
  | .ok response =>
    match check_response response with
    | .error e => simple_handle_notices st o e
    | .ok homeworks =>
      let st1 := { st with timestamp := response.getD "current_date" (.int o.now) }
      match homeworks with
      | [] => (.next st1, [])
      | hw :: _ =>
        match parse_status hw with
        | .error e => simple_handle_notices st1 o e
        | .ok message =>
          (.next st1, if o.statusSendOk then [.statusSend message] else [])

/-! ## The dual-activity variant's scheduler loop (src/backend/homework.py, main, lines 184-235) -/

/-- The sort key `lambda x: x.get('date_updated', 0)` (src/backend/homework.py
line 214): an absent `date_updated` counts as 0.  The embedding assumes the
field, when present, is the integer timestamp the API contract promises. -/
def duKey (x : Raw) : Int :=
  match x.find? "date_updated" with
  | some (.int n) => n
  | _ => 0

/-- Stable descending insertion by `duKey`: the inserted element goes before
the first strictly smaller key, and before equal keys, matching how CPython's
stable `sorted(..., reverse=True)` keeps the original order inside every
group of equal keys. -/
def insertByKeyDesc (x : Raw) : List Raw → List Raw
  | [] => [x]
  | y :: ys => if duKey x ≥ duKey y then x :: y :: ys else y :: insertByKeyDesc x ys

/-- `sorted(homeworks, key=lambda x: x.get('date_updated', 0), reverse=True)`
(src/backend/homework.py lines 212-216) as a stable descending insertion
sort (elements are inserted right-to-left, so each goes in before the
equal-keyed elements that followed it originally). -/
def sortByKeyDesc : List Raw → List Raw
  | [] => []
  | x :: xs => insertByKeyDesc x (sortByKeyDesc xs)

/-- The record the spec's ordering policy designates: the first record of the
batch attaining the maximal `last_update`/`date_updated` key (most recent,
ties broken by original response order).  Stated from the spec's words, to be
compared with the head of the code's sort. -/
def firstMostRecent : List Raw → Option Raw
  | [] => none
  | x :: xs =>
    match firstMostRecent xs with
    | none => some x
    | some m => if duKey m > duKey x then some m else some x

/-- Python `current_status != last_status` where `last_status` starts as
`None` (src/backend/homework.py lines 190, 219). -/
def statusNeqLast (s : Raw) : Option Raw → Bool
  | none => true
  | some t => ! Raw.pyEq s t

/-- The loop-carried state of `main` in src/backend/homework.py: the fetch
cursor and the status code of the last successfully notified record. -/
structure BackendState where
  timestamp : Raw
  last_status : Option Raw

/-- The external effects of one backend cycle: the `get_api_answer` outcome,
the local clock read by the `current_date` fallback, and the transport
outcome of `send_message` (which converts its own failures to `False`). -/
structure BackendOracle where
  fetchRes : Except BotError Raw
  now : Int
  sendOk : Bool

/-- One iteration of the backend variant's `while True` loop
(src/backend/homework.py lines 204-235).  Every exception is caught by the
`except Exception` clause (which only logs and sleeps), so a cycle never
crashes; `timestamp` and `last_status` are reassigned only when the newest
record's status differs from `last_status` and `send_message` returned
`True`.  Since the only handler leaves the state untouched and sends
nothing, every raise point (including the `KeyError`s of `['status']`,
`['homework_name']` and `HOMEWORK_VERDICTS[current_status]`) is written
directly as the handler's landing value `(st, [])`.  The branch on the
sorted list mirrors `if homeworks:` (a list is truthy iff non-empty, and
sorting preserves emptiness). -/
def backend_cycle (st : BackendState) (o : BackendOracle) :
    BackendState × List String :=
  match o.fetchRes with
  | .error _ => (st, [])
  | .ok response =>
    match check_response response with
    | .error _ => (st, [])
    | .ok homeworks =>
      let current_timestamp := response.getD "current_date" (.int o.now)
      match sortByKeyDesc homeworks with
      | [] => (st, [])
      | newest :: _ =>
        match newest.find? "status" with
        | none => (st, [])
        | some current_status =>
          if statusNeqLast current_status st.last_status then
            match newest.find? "homework_name", verdictOf current_status with
            | some nm, some verdict =>
              let message := "Статус изменён!\nРабота: " ++ nm.rend
                ++ "\nНовый статус: " ++ verdict
              if o.sendOk then
                ({ timestamp := current_timestamp,
                   last_status := some current_status }, [message])
              else (st, [])
            | _, _ => (st, [])
          else (st, [])

/-- Run the backend variant's loop through a list of per-cycle oracles;
collects all delivered texts.  (This loop never crashes.) -/
def backend_run (st : BackendState) : List BackendOracle → BackendState × List String
  | [] => (st, [])
  | o :: os =>
    match backend_cycle st o with
    | (st1, sent) =>
      match backend_run st1 os with
      | (st2, sent1) => (st2, sent ++ sent1)

/-! ## Startup precondition (check_tokens, src/homework.py lines 41-56) -/

/-- Python truthiness of an environment value: `os.getenv` yields `None`
when unset, and the empty string is also falsy. -/
def truthy : Option String → Bool
  | none => false
  | some s => s ≠ ""

/-- The three configuration values read at import time. -/
structure Config where
  practicum : Option String
  telegram : Option String
  chatId : Option String

/-- The `missing_tokens` list built by `check_tokens` (src/homework.py lines
43-49; the backend's comprehension over the same three pairs in the same
order produces the same list). -/
def missing_tokens (c : Config) : List String :=
  (if truthy c.practicum then [] else ["PRACTICUM_TOKEN"])
    ++ (if truthy c.telegram then [] else ["TELEGRAM_TOKEN"])
    ++ (if truthy c.chatId then [] else ["TELEGRAM_CHAT_ID"])

/-- `check_tokens`: logs the missing names and returns `False` when any is
missing, else `True`. -/
def check_tokens (c : Config) : Bool :=
  missing_tokens c == []

/-- `main`'s startup gate (`if not check_tokens(): exit()`, src/homework.py
lines 130-131 and src/backend/homework.py lines 186-187): the scheduler loop
starts iff `check_tokens` returned `True`. -/
def main_starts_loop (c : Config) : Bool :=
  check_tokens c

/-! ## Concrete fixtures used by counterexamples and witnesses -/

/-- A well-formed homework record. -/
def hwApproved : Raw :=
  .dict [("homework_name", .str "hw1"), ("status", .str "approved"),
         ("date_updated", .int 10)]

/-- A well-formed API response carrying `hwApproved` and a `current_date`. -/
def respApproved : Raw :=
  .dict [("homeworks", .list [hwApproved]), ("current_date", .int 60)]

/-- A well-formed API response with an empty batch and no `current_date`. -/
def respEmpty : Raw := .dict [("homeworks", .list [])]

/-- The spec's tie-break example records {id:A, last_update:100},
{id:B, last_update:200}, {id:C, last_update:200} (with a recognised status
so `parse_status` succeeds on them). -/
def recA : Raw :=
  .dict [("homework_name", .str "A"), ("status", .str "approved"),
         ("date_updated", .int 100)]

/-- See `recA`. -/
def recB : Raw :=
  .dict [("homework_name", .str "B"), ("status", .str "approved"),
         ("date_updated", .int 200)]

/-- See `recA`. -/
def recC : Raw :=
  .dict [("homework_name", .str "C"), ("status", .str "approved"),
         ("date_updated", .int 200)]

/-- The response delivering the tie-break batch in original order A, B, C. -/
def respABC : Raw :=
  .dict [("homeworks", .list [recA, recB, recC]), ("current_date", .int 300)]

end YandexBot

namespace YandexBot

theorem head_insertByKeyDesc (x : Raw) (s : List Raw) :
    (insertByKeyDesc x s).head? = some (match s with
      | [] => x
      | y :: _ => if duKey x ≥ duKey y then x else y) := by
  cases s with
  | nil => rfl
  | cons y ys =>
    by_cases h : duKey x ≥ duKey y <;> simp [insertByKeyDesc, h]

theorem sortByKeyDesc_head (l : List Raw) :
    (sortByKeyDesc l).head? = firstMostRecent l := by
  induction l with
  | nil => rfl
  | cons x xs ih =>
    rw [sortByKeyDesc, head_insertByKeyDesc, firstMostRecent]
    cases hs : sortByKeyDesc xs with
    | nil =>
      rw [hs] at ih
      simp at ih
      rw [← ih]
    | cons y ys =>
      rw [hs] at ih
      simp at ih
      rw [← ih]
      by_cases h : duKey x ≥ duKey y
      · have h2 : ¬ (duKey y > duKey x) := by omega
        simp [h, h2]
      · have h2 : duKey y > duKey x := by omega
        simp [h, h2]

theorem parse_status_error_not_hbe (hw : Raw) (e : BotError)
    (h : parse_status hw = .error e) : e.isHomeworkBotError = false := by
  unfold parse_status at h
  split at h
  · cases h; rfl
  · split at h
    · cases h; rfl
    · split at h
      · cases h; rfl
      · cases h

theorem simple_handle_next_timestamp (st : SimpleState) (o : SimpleOracle)
    (e : BotError) (st' : SimpleState) (sent : List String)
    (h : simple_handle st o e = (.next st', sent)) : st'.timestamp = st.timestamp := by
  unfold simple_handle at h
  split at h
  · split at h
    · cases h; rfl
    · split at h
      · split at h
        · cases h; rfl
        · cases h
      · split at h
        · cases h; rfl
        · cases h
  · cases h

end YandexBot

namespace YandexBot

/-- C6 (amended): in the dual-activity variant the record acted on per cycle
is the head of the stable descending sort by `date_updated`, which is, for
every batch, the first record of the batch attaining the maximal key (most
recent; ties broken by original response order; absent key treated as 0);
on the spec's example batch [A@100, B@200, C@200] the selected record is B.
The simple variant, by contrast, acts on the first record in response order
(see the counterexample). -/
theorem C6_ordering_amended :
    (∀ l : List Raw, (sortByKeyDesc l).head? = firstMostRecent l)
    ∧ (sortByKeyDesc [recA, recB, recC]).head? = some recB :=
  ⟨sortByKeyDesc_head, rfl⟩

/-- C6 counterexample: on the spec's example batch, the simple variant acts
on record A — the first of the response — and A's display text differs from
B's, refuting the claim that the selected record is always the most recent
one (B). -/
theorem C6_ordering_counterexample :
    (simple_cycle ⟨.int 0, none, none⟩ ⟨.ok respABC, 45, true, .ok 1, .ok ()⟩).2
      = ["Изменился статус проверки работы \"A\". Работа проверена: ревьюеру всё понравилось. Ура!"]
    ∧ ("Изменился статус проверки работы \"A\". Работа проверена: ревьюеру всё понравилось. Ура!"
        ≠ "Изменился статус проверки работы \"B\". Работа проверена: ревьюеру всё понравилось. Ура!") :=
  ⟨rfl, by decide⟩

/-- C7: whenever a record has both required fields but its status code is
not a recognised verdict, `parse_status` (both variants) fails with the
unknown-status error carrying the code, and produces no fallback text. -/
theorem C7_unknown_verdict :
    ∀ (hw nameV statusV : Raw),
      hw.find? "homework_name" = some nameV → hw.find? "status" = some statusV →
      verdictOf statusV = none →
      parse_status hw = .error (.valueErr ("Неизвестный статус работы: " ++ statusV.rend))
      ∧ parse_status_b hw = .error (.valueErr ("Неизвестный статус: " ++ statusV.rend)) := by
  intro hw nameV statusV h1 h2 h3
  unfold parse_status parse_status_b
  rw [h1, h2]
  simp [h3]

/-- C7 witness: the spec's example record {homework_name:"x", status:"archived"}. -/
theorem C7_unknown_verdict_witness :
    parse_status (.dict [("homework_name", .str "x"), ("status", .str "archived")])
      = .error (.valueErr ("Неизвестный статус работы: " ++ (Raw.str "archived").rend))
    ∧ parse_status_b (.dict [("homework_name", .str "x"), ("status", .str "archived")])
      = .error (.valueErr ("Неизвестный статус: " ++ (Raw.str "archived").rend)) :=
  C7_unknown_verdict _ (.str "x") (.str "archived") rfl rfl rfl

end YandexBot

namespace YandexBot

/-- C8: `check_response` fails with a `TypeError` (MalformedResponse) on a
non-dict input and on a non-list `homeworks` value, fails with the
`KeyError` for "homeworks" (MissingField) when the field is absent — in
particular on the empty dict — and on success returns the stored list of
entries unchanged. -/
theorem C8_check_response :
    (∀ r : Raw, (∀ kvs, r ≠ .dict kvs) →
        check_response r
          = .error (.typeErr ("Ответ API должен быть словарем, но получен " ++ r.typeName)))
    ∧ check_response (.dict []) = .error (.keyErr "Отсутствует ключ \"homeworks\" в ответе API")
    ∧ (∀ kvs, (Raw.dict kvs).find? "homeworks" = none →
        check_response (.dict kvs) = .error (.keyErr "Отсутствует ключ \"homeworks\" в ответе API"))
    ∧ (∀ kvs v, (Raw.dict kvs).find? "homeworks" = some v → (∀ l, v ≠ .list l) →
        check_response (.dict kvs)
          = .error (.typeErr ("Значение ключа \"homeworks\" должно быть списком, но получен " ++ v.typeName)))
    ∧ (∀ kvs hws, (Raw.dict kvs).find? "homeworks" = some (.list hws) →
        check_response (.dict kvs) = .ok hws) := by
  refine ⟨?_, rfl, ?_, ?_, ?_⟩
  · intro r h
    cases r with
    | dict kvs => exact absurd rfl (h kvs)
    | str s => rfl
    | int n => rfl
    | list l => rfl
  · intro kvs h
    unfold check_response
    rw [h]
  · intro kvs v h hv
    unfold check_response
    rw [h]
    cases v with
    | list l => exact absurd rfl (hv l)
    | str s => rfl
    | int n => rfl
    | dict d => rfl
  · intro kvs hws h
    unfold check_response
    rw [h]

/-- C8 witness: each case of `C8_check_response` at a concrete input. -/
theorem C8_check_response_witness :
    check_response (.list [])
      = .error (.typeErr ("Ответ API должен быть словарем, но получен " ++ (Raw.list []).typeName))
    ∧ check_response (.dict []) = .error (.keyErr "Отсутствует ключ \"homeworks\" в ответе API")
    ∧ check_response (.dict [("homeworks", .str "not-a-list")])
      = .error (.typeErr ("Значение ключа \"homeworks\" должно быть списком, но получен "
          ++ (Raw.str "not-a-list").typeName))
    ∧ check_response (.dict [("homeworks", .list [.int 1])]) = .ok [.int 1] :=
  ⟨C8_check_response.1 (.list []) (fun _ h => nomatch h),
   C8_check_response.2.1,
   C8_check_response.2.2.2.1 [("homeworks", .str "not-a-list")] (.str "not-a-list") rfl
     (fun _ h => nomatch h),
   C8_check_response.2.2.2.2 [("homeworks", .list [.int 1])] [.int 1] rfl⟩

/-- C9: the scheduler loop starts iff all three configuration values are
present (truthy), and the `missing_tokens` list reported by `check_tokens`
contains exactly the names of the values that are missing. -/
theorem C9_check_tokens :
    ∀ c : Config,
      (main_starts_loop c = true ↔
        (truthy c.practicum = true ∧ truthy c.telegram = true ∧ truthy c.chatId = true))
      ∧ ("PRACTICUM_TOKEN" ∈ missing_tokens c ↔ truthy c.practicum = false)
      ∧ ("TELEGRAM_TOKEN" ∈ missing_tokens c ↔ truthy c.telegram = false)
      ∧ ("TELEGRAM_CHAT_ID" ∈ missing_tokens c ↔ truthy c.chatId = false)
      ∧ (missing_tokens c = [] ↔ main_starts_loop c = true) := by
  intro c
  unfold main_starts_loop check_tokens missing_tokens
  cases hp : truthy c.practicum <;> cases ht : truthy c.telegram <;>
    cases hc : truthy c.chatId <;> simp

end YandexBot

namespace YandexBot

/-- C1 (amended): in the simple variant, whenever fetch and validation
succeed, the next cursor equals the raw response's `current_date` value when
present and otherwise the local wall-clock reading `int(time.time())` — so
it can move backward past the prior cursor — and whenever fetch or
validation fails, any continuing cycle leaves the cursor unchanged. -/
theorem C1_cursor_amended :
    (∀ (st : SimpleState) (o : SimpleOracle) (response : Raw) (homeworks : List Raw)
        (st' : SimpleState) (sent : List String),
        o.fetchRes = .ok response → check_response response = .ok homeworks →
        simple_cycle st o = (.next st', sent) →
        st'.timestamp = response.getD "current_date" (.int o.now))
    ∧ (∀ (st : SimpleState) (o : SimpleOracle) (e : BotError)
         (st' : SimpleState) (sent : List String),
        o.fetchRes = .error e →
        simple_cycle st o = (.next st', sent) → st'.timestamp = st.timestamp)
    ∧ (∀ (st : SimpleState) (o : SimpleOracle) (response : Raw) (e : BotError)
         (st' : SimpleState) (sent : List String),
        o.fetchRes = .ok response → check_response response = .error e →
        simple_cycle st o = (.next st', sent) → st'.timestamp = st.timestamp) := by
  refine ⟨?_, ?_, ?_⟩
  · intro st o response homeworks st' sent hf hc hcy
    simp only [simple_cycle, hf, hc] at hcy
    cases homeworks with
    | nil => cases hcy; rfl
    | cons hw rest =>
      simp only at hcy
      cases hp : parse_status hw with
      | error e =>
        rw [hp] at hcy
        exact simple_handle_next_timestamp _ o e st' sent hcy
      | ok message =>
        rw [hp] at hcy
        cases hcy; rfl
  · intro st o e st' sent hf hcy
    simp only [simple_cycle, hf] at hcy
    exact simple_handle_next_timestamp st o e st' sent hcy
  · intro st o response e st' sent hf hc hcy
    simp only [simple_cycle, hf, hc] at hcy
    exact simple_handle_next_timestamp st o e st' sent hcy

/-- C1 witness: a successful cycle whose response carries `current_date` 60. -/
theorem C1_cursor_amended_witness :
    (SimpleState.mk (.int 60) none none).timestamp
      = Raw.getD (.dict [("homeworks", .list []), ("current_date", .int 60)])
          "current_date" (.int 45) :=
  C1_cursor_amended.1 ⟨.int 0, none, none⟩
    ⟨.ok (.dict [("homeworks", .list []), ("current_date", .int 60)]), 45, true, .ok 1, .ok ()⟩
    _ [] ⟨.int 60, none, none⟩ [] rfl rfl rfl

/-- C1 counterexample: a cycle whose well-formed response lacks
`current_date` (prior cursor 100, local clock 50): the next cursor is 50 —
advanced to local wall-clock time, not left unchanged, and strictly below the
prior cursor. -/
theorem C1_cursor_counterexample :
    simple_cycle ⟨.int 100, none, none⟩ ⟨.ok respEmpty, 50, true, .ok 1, .ok ()⟩
      = (.next ⟨.int 50, none, none⟩, []) ∧ ¬ ((100 : Int) ≤ 50) :=
  ⟨rfl, by decide⟩

/-- C2: evaluation at the failing input.  In the simple variant a response
missing the `homeworks` key raises a `KeyError`, which is not a
`HomeworkBotError`, escapes `main`'s `except HomeworkBotError` clause and
terminates the scheduler loop (no error notification is sent); the backend
variant's `except Exception` does catch it and its loop continues. -/
theorem C2_uncaught_error_eval :
    simple_cycle ⟨.int 100, none, none⟩ ⟨.ok (.dict []), 50, true, .ok 1, .ok ()⟩
      = (.crash (.keyErr "Отсутствует ключ \"homeworks\" в ответе API"), [])
    ∧ (BotError.keyErr "Отсутствует ключ \"homeworks\" в ответе API").isHomeworkBotError = false
    ∧ backend_cycle ⟨.int 100, none⟩ ⟨.ok (.dict []), 50, true⟩ = (⟨.int 100, none⟩, []) :=
  ⟨rfl, rfl, rfl⟩

/-- C5: evaluation at the failing input.  In the simple variant, when a new
`APIResponseError` is being notified and the unguarded `bot.send_message` in
the error branch fails, the transport exception escapes the cycle and
terminates the loop.  In the backend variant `send_message` converts the
failure to `False` and the cycle returns normally with the dedup state
(`last_status`, `timestamp`) unchanged, so the same message is retried on a
later differing cycle. -/
theorem C5_delivery_failure_eval :
    simple_cycle ⟨.int 100, none, none⟩
        ⟨.error (.apiError "api down"), 50, true, .error (.transportErr "telegram down"), .ok ()⟩
      = (.crash (.transportErr "telegram down"), [])
    ∧ backend_cycle ⟨.int 0, none⟩ ⟨.ok respApproved, 45, false⟩ = (⟨.int 0, none⟩, []) :=
  ⟨rfl, rfl⟩

end YandexBot

namespace YandexBot

theorem simple_handle_not_hbe (st : SimpleState) (o : SimpleOracle) (e : BotError)
    (h : e.isHomeworkBotError = false) : simple_handle st o e = (.crash e, []) := by
  unfold simple_handle
  simp [h]

theorem simple_handle_notices_agree (st : SimpleState) (o : SimpleOracle) (e : BotError) :
    (simple_handle_notices st o e).1 = (simple_handle st o e).1
    ∧ (simple_handle_notices st o e).2.filterMap Notice.sentText?
        = (simple_handle st o e).2 := by
  cases hbe : e.isHomeworkBotError with
  | false => simp [simple_handle_notices, simple_handle, hbe]
  | true =>
    cases hne : st.last_error == some e.errStr with
    | true => simp [simple_handle_notices, simple_handle, hbe, hne]
    | false =>
      cases hmid : st.last_message_id with
      | some mid =>
        cases hed : o.errorEditRes with
        | ok u =>
          simp [simple_handle_notices, simple_handle, hbe, hne, hmid, hed, Notice.sentText?]
        | error de =>
          simp [simple_handle_notices, simple_handle, hbe, hne, hmid, hed]
      | none =>
        cases hdel : o.errorDeliver with
        | ok mid =>
          simp [simple_handle_notices, simple_handle, hbe, hne, hmid, hdel, Notice.sentText?]
        | error de =>
          simp [simple_handle_notices, simple_handle, hbe, hne, hmid, hdel]

theorem simple_cycle_notices_agree (st : SimpleState) (o : SimpleOracle) :
    (simple_cycle_notices st o).1 = (simple_cycle st o).1
    ∧ (simple_cycle_notices st o).2.filterMap Notice.sentText? = (simple_cycle st o).2 := by
  cases hf : o.fetchRes with
  | error e =>
    simpa [simple_cycle_notices, simple_cycle, hf] using simple_handle_notices_agree st o e
  | ok response =>
    cases hc : check_response response with
    | error e =>
      simpa [simple_cycle_notices, simple_cycle, hf, hc]
        using simple_handle_notices_agree st o e
    | ok homeworks =>
      cases homeworks with
      | nil => simp [simple_cycle_notices, simple_cycle, hf, hc]
      | cons hw rest =>
        cases hp : parse_status hw with
        | error e =>
          simpa [simple_cycle_notices, simple_cycle, hf, hc, hp]
            using simple_handle_notices_agree
              { st with timestamp := response.getD "current_date" (.int o.now) } o e
        | ok message =>
          cases hsend : o.statusSendOk with
          | true =>
            simp [simple_cycle_notices, simple_cycle, hf, hc, hp, hsend, Notice.sentText?]
          | false => simp [simple_cycle_notices, simple_cycle, hf, hc, hp, hsend]

/-- C4 (amended): the simple variant never clears `last_error` — a cycle in
which fetch and validation succeed leaves `last_error` and
`last_message_id` exactly as they were — and a subsequent error is notified
precisely when its text differs from the stored `last_error`: when a prior
error-message id exists (the reachable case once any error was delivered,
since the id is never cleared either) the existing message is edited in
place to the new error text, when none exists a fresh message is sent, and
either way the successful notification records the new text in
`last_error`; an error repeating the stored text is suppressed as a stale
duplicate. -/
theorem C4_error_reset_amended :
    (∀ (st : SimpleState) (o : SimpleOracle) (response : Raw) (homeworks : List Raw)
        (st' : SimpleState) (sent : List String),
        o.fetchRes = .ok response → check_response response = .ok homeworks →
        simple_cycle st o = (.next st', sent) →
        st'.last_error = st.last_error ∧ st'.last_message_id = st.last_message_id)
    ∧ (∀ (st : SimpleState) (o : SimpleOracle) (e : BotError) (mid : Nat),
        o.fetchRes = .error e → e.isHomeworkBotError = true →
        (st.last_error == some e.errStr) = false → st.last_message_id = some mid →
        o.errorEditRes = .ok () →
        simple_cycle_notices st o
          = (.next { st with last_error := some e.errStr },
             [.editInPlace ("Сбой в работе программы: " ++ e.errStr)]))
    ∧ (∀ (st : SimpleState) (o : SimpleOracle) (e : BotError) (mid : Nat),
        o.fetchRes = .error e → e.isHomeworkBotError = true →
        (st.last_error == some e.errStr) = false → st.last_message_id = none →
        o.errorDeliver = .ok mid →
        simple_cycle_notices st o
          = (.next { st with last_error := some e.errStr, last_message_id := some mid },
             [.freshSend ("Сбой в работе программы: " ++ e.errStr)]))
    ∧ (∀ (st : SimpleState) (o : SimpleOracle) (e : BotError),
        o.fetchRes = .error e → e.isHomeworkBotError = true →
        (st.last_error == some e.errStr) = true →
        simple_cycle_notices st o = (.next st, [])) := by
  refine ⟨?_, ?_, ?_, ?_⟩
  · intro st o response homeworks st' sent hf hc hcy
    simp only [simple_cycle, hf, hc] at hcy
    cases homeworks with
    | nil => cases hcy; exact ⟨rfl, rfl⟩
    | cons hw rest =>
      simp only at hcy
      cases hp : parse_status hw with
      | error e =>
        rw [hp] at hcy
        have hcy2 : simple_handle
            { st with timestamp := response.getD "current_date" (.int o.now) } o e
            = (.next st', sent) := hcy
        rw [simple_handle_not_hbe _ o e (parse_status_error_not_hbe hw e hp)] at hcy2
        simp at hcy2
      | ok message =>
        rw [hp] at hcy
        cases hcy; exact ⟨rfl, rfl⟩
  · intro st o e mid hf hhbe hne hmid hdel
    simp only [simple_cycle_notices, hf, simple_handle_notices, hhbe, hne, hmid, hdel]
    simp
  · intro st o e mid hf hhbe hne hmid hdel
    simp only [simple_cycle_notices, hf, simple_handle_notices, hhbe, hne, hmid, hdel]
    simp
  · intro st o e hf hhbe heq
    simp only [simple_cycle_notices, hf, simple_handle_notices, hhbe, heq]
    simp

/-- C4 witness, exercising the reachable post-success states: error "E" was
delivered as message 7 and a cycle then succeeded, preserving
`last_error = "E"` and `last_message_id = 7`; from that state a differing
error "F" is notified by editing message 7 in place, and a repeat of "E" is
suppressed. -/
theorem C4_error_reset_amended_witness :
    ((SimpleState.mk (.int 50) (some "E") (some 7)).last_error
        = (SimpleState.mk (.int 100) (some "E") (some 7)).last_error
      ∧ (SimpleState.mk (.int 50) (some "E") (some 7)).last_message_id
        = (SimpleState.mk (.int 100) (some "E") (some 7)).last_message_id)
    ∧ simple_cycle_notices ⟨.int 50, some "E", some 7⟩
        ⟨.error (.apiError "F"), 55, true, .ok 9, .ok ()⟩
      = (.next ⟨.int 50, some (BotError.apiError "F").errStr, some 7⟩,
         [.editInPlace ("Сбой в работе программы: " ++ (BotError.apiError "F").errStr)])
    ∧ simple_cycle_notices ⟨.int 50, some "E", some 7⟩
        ⟨.error (.apiError "E"), 55, true, .ok 9, .ok ()⟩
      = (.next ⟨.int 50, some "E", some 7⟩, []) :=
  ⟨C4_error_reset_amended.1 ⟨.int 100, some "E", some 7⟩
      ⟨.ok respEmpty, 50, true, .ok 1, .ok ()⟩ respEmpty []
      ⟨.int 50, some "E", some 7⟩ [] rfl rfl rfl,
   C4_error_reset_amended.2.1 ⟨.int 50, some "E", some 7⟩
      ⟨.error (.apiError "F"), 55, true, .ok 9, .ok ()⟩
      (.apiError "F") 7 rfl rfl rfl rfl rfl,
   C4_error_reset_amended.2.2.2 ⟨.int 50, some "E", some 7⟩
      ⟨.error (.apiError "E"), 55, true, .ok 9, .ok ()⟩
      (.apiError "E") rfl rfl rfl⟩

/-- C4 counterexample: error "E" is notified, the next cycle succeeds, and
the third cycle fails with the same text "E": after the successful cycle
`last_error` is still `some "E"` (not cleared), so the repeat of "E" is
suppressed — exactly one error delivery happens across the three cycles. -/
theorem C4_error_reset_counterexample :
    simple_run ⟨.int 100, none, none⟩
        [⟨.error (.apiError "E"), 45, true, .ok 7, .ok ()⟩,
         ⟨.ok respEmpty, 50, true, .ok 1, .ok ()⟩,
         ⟨.error (.apiError "E"), 55, true, .ok 9, .ok ()⟩]
      = (.next ⟨.int 50, some "E", some 7⟩, ["Сбой в работе программы: E"]) := rfl

end YandexBot

namespace YandexBot

/-- C3 (amended): in the dual-activity variant, two consecutive cycles whose
newest records carry the same status code result in exactly one delivery
when the first delivery succeeds: the second cycle is suppressed because its
status equals the stored `last_status` (the dedup key is the status code,
which determines the display text).  The simple variant applies no
deduplication on the status path and delivers on both cycles (see the
counterexample). -/
theorem C3_dedup_amended :
    ∀ (st : BackendState) (o1 o2 : BackendOracle) (r1 r2 : Raw)
      (hws1 hws2 : List Raw) (n1 n2 : Raw) (t1 t2 : List Raw)
      (s s2 nm : Raw) (v : String),
      o1.fetchRes = .ok r1 → check_response r1 = .ok hws1 →
      sortByKeyDesc hws1 = n1 :: t1 → n1.find? "status" = some s →
      statusNeqLast s st.last_status = true →
      n1.find? "homework_name" = some nm → verdictOf s = some v →
      o1.sendOk = true →
      o2.fetchRes = .ok r2 → check_response r2 = .ok hws2 →
      sortByKeyDesc hws2 = n2 :: t2 → n2.find? "status" = some s2 →
      Raw.pyEq s2 s = true →
      (backend_run st [o1, o2]).2
        = ["Статус изменён!\nРабота: " ++ nm.rend ++ "\nНовый статус: " ++ v] := by
  intro st o1 o2 r1 r2 hws1 hws2 n1 n2 t1 t2 s s2 nm v
  intro hf1 hcr1 hsort1 hst1 hneq hname hverd hsend hf2 hcr2 hsort2 hst2 hpy
  have hc1 : backend_cycle st o1
      = ({ timestamp := r1.getD "current_date" (.int o1.now), last_status := some s },
         ["Статус изменён!\nРабота: " ++ nm.rend ++ "\nНовый статус: " ++ v]) := by
    simp only [backend_cycle, hf1, hcr1, hsort1, hst1, hneq, hname, hverd, hsend]
    simp
  have hc2 : backend_cycle
      { timestamp := r1.getD "current_date" (.int o1.now), last_status := some s } o2
      = ({ timestamp := r1.getD "current_date" (.int o1.now), last_status := some s }, []) := by
    simp only [backend_cycle, hf2, hcr2, hsort2, hst2, statusNeqLast, hpy]
    simp
  simp [backend_run, hc1, hc2]

/-- C3 witness: two cycles delivering the same record back to back — one
message goes out. -/
theorem C3_dedup_amended_witness :
    (backend_run ⟨.int 0, none⟩
        [⟨.ok respApproved, 45, true⟩, ⟨.ok respApproved, 55, true⟩]).2
      = ["Статус изменён!\nРабота: " ++ (Raw.str "hw1").rend ++ "\nНовый статус: "
          ++ "Работа проверена: ревьюеру всё понравилось. Ура!"] :=
  C3_dedup_amended ⟨.int 0, none⟩ ⟨.ok respApproved, 45, true⟩ ⟨.ok respApproved, 55, true⟩
    respApproved respApproved [hwApproved] [hwApproved] hwApproved hwApproved [] []
    (.str "approved") (.str "approved") (.str "hw1")
    "Работа проверена: ревьюеру всё понравилось. Ура!"
    rfl rfl rfl rfl rfl rfl rfl rfl rfl rfl rfl rfl rfl

/-- C3 counterexample: in the simple variant two consecutive cycles
delivering the same record with byte-identical display text result in two
deliveries, not one — there is no status-path deduplication. -/
theorem C3_dedup_counterexample :
    (simple_run ⟨.int 0, none, none⟩
        [⟨.ok respApproved, 45, true, .ok 1, .ok ()⟩,
         ⟨.ok respApproved, 55, true, .ok 1, .ok ()⟩]).2
      = ["Изменился статус проверки работы \"hw1\". Работа проверена: ревьюеру всё понравилось. Ура!",
         "Изменился статус проверки работы \"hw1\". Работа проверена: ревьюеру всё понравилось. Ура!"] := rfl

end YandexBot

namespace YandexBot

/-- C10: frame conditions of the backend scheduler loop — a cycle with an
empty batch leaves the state (cursor and `last_status`) unchanged; so does a
cycle whose newest record's status equals `last_status`, and any cycle whose
delivery did not succeed; and whenever the state changes at all, the
delivery succeeded and the newest record's status differed from
`last_status` and becomes the new `last_status`. -/
theorem C10_frame :
    (∀ (st : BackendState) (o : BackendOracle) (r : Raw),
        o.fetchRes = .ok r → check_response r = .ok [] → backend_cycle st o = (st, []))
    ∧ (∀ (st : BackendState) (o : BackendOracle) (r : Raw) (hws : List Raw)
         (n : Raw) (t : List Raw) (s : Raw),
        o.fetchRes = .ok r → check_response r = .ok hws → sortByKeyDesc hws = n :: t →
        n.find? "status" = some s → statusNeqLast s st.last_status = false →
        backend_cycle st o = (st, []))
    ∧ (∀ (st : BackendState) (o : BackendOracle),
        o.sendOk = false → backend_cycle st o = (st, []))
    ∧ (∀ (st : BackendState) (o : BackendOracle),
        (backend_cycle st o).1 ≠ st →
        o.sendOk = true ∧ ∃ s : Raw, statusNeqLast s st.last_status = true ∧
          (backend_cycle st o).1.last_status = some s) := by
  refine ⟨?_, ?_, ?_, ?_⟩
  · intro st o r hf hc
    simp [backend_cycle, hf, hc, sortByKeyDesc]
  · intro st o r hws n t s hf hc hsort hst hneq
    simp [backend_cycle, hf, hc, hsort, hst, hneq]
  · intro st o hsend
    cases hf : o.fetchRes with
    | error e => simp [backend_cycle, hf]
    | ok r =>
      cases hc : check_response r with
      | error e => simp [backend_cycle, hf, hc]
      | ok hws =>
        cases hs : sortByKeyDesc hws with
        | nil => simp [backend_cycle, hf, hc, hs]
        | cons n t =>
          cases hst : n.find? "status" with
          | none => simp [backend_cycle, hf, hc, hs, hst]
          | some s =>
            cases hneq : statusNeqLast s st.last_status with
            | false => simp [backend_cycle, hf, hc, hs, hst, hneq]
            | true =>
              cases hnm : n.find? "homework_name" with
              | none => simp [backend_cycle, hf, hc, hs, hst, hneq, hnm]
              | some nm =>
                cases hv : verdictOf s with
                | none => simp [backend_cycle, hf, hc, hs, hst, hneq, hnm, hv]
                | some v => simp [backend_cycle, hf, hc, hs, hst, hneq, hnm, hv, hsend]
  · intro st o h
    cases hf : o.fetchRes with
    | error e => simp [backend_cycle, hf] at h
    | ok r =>
      cases hc : check_response r with
      | error e => simp [backend_cycle, hf, hc] at h
      | ok hws =>
        cases hs : sortByKeyDesc hws with
        | nil => simp [backend_cycle, hf, hc, hs] at h
        | cons n t =>
          cases hst : n.find? "status" with
          | none => simp [backend_cycle, hf, hc, hs, hst] at h
          | some s =>
            cases hneq : statusNeqLast s st.last_status with
            | false => simp [backend_cycle, hf, hc, hs, hst, hneq] at h
            | true =>
              cases hnm : n.find? "homework_name" with
              | none => simp [backend_cycle, hf, hc, hs, hst, hneq, hnm] at h
              | some nm =>
                cases hv : verdictOf s with
                | none => simp [backend_cycle, hf, hc, hs, hst, hneq, hnm, hv] at h
                | some v =>
                  cases hsend : o.sendOk with
                  | false => simp [backend_cycle, hf, hc, hs, hst, hneq, hnm, hv, hsend] at h
                  | true =>
                    refine ⟨rfl, s, hneq, ?_⟩
                    simp [backend_cycle, hf, hc, hs, hst, hneq, hnm, hv, hsend]

/-- C10 witness: an empty-batch cycle and a failed-delivery cycle, each
leaving the state untouched. -/
theorem C10_frame_witness :
    backend_cycle ⟨.int 5, none⟩ ⟨.ok respEmpty, 45, true⟩ = (⟨.int 5, none⟩, [])
    ∧ backend_cycle ⟨.int 5, none⟩ ⟨.ok respApproved, 45, false⟩ = (⟨.int 5, none⟩, []) :=
  ⟨C10_frame.1 ⟨.int 5, none⟩ ⟨.ok respEmpty, 45, true⟩ respEmpty rfl rfl,
   C10_frame.2.2.1 ⟨.int 5, none⟩ ⟨.ok respApproved, 45, false⟩ rfl⟩

end YandexBot
